import Mathlib

/-!
Shallow embedding of the service registry and lifecycle manager of the
DoneTech-IoT/Oven firmware (src/main/ServiceManager/): the factory registry
(ServiceFactory.cpp), the service manager startup trigger and per-service
initialization (ServiceMngr.hpp and ServiceMngr_Generalized.cpp), and the
manager constructor.  Service instances and task handles are abstract type
parameters S and H; the platform (factory bodies, TaskInit outcomes, platform
bring-up results) is an explicit environment.
-/

namespace Oven

/-- Numeric value of SharedBus::ServiceID::NO_ID, position 0 of the
mServiceName and mServiceStackSize tables in ServiceMngr_Generalized.hpp. -/
def NO_ID : Nat := 0

/-- Numeric value of SharedBus::ServiceID::SERVICE_MANAGER (table position 1). -/
def SERVICE_MANAGER : Nat := 1

/-- Numeric value of SharedBus::ServiceID::UI (table position 2). -/
def UI : Nat := 2

/-- Numeric value of SharedBus::ServiceID::MATTER (table position 3). -/
def MATTER : Nat := 3

/-- Numeric value of SharedBus::ServiceID::MQTT (table position 4). -/
def MQTT : Nat := 4

/-- Numeric value of SharedBus::ServiceID::LOG (table position 5). -/
def LOG : Nat := 5

/-- Numeric value of SharedBus::ServiceID::MAX_ID, the array extent and
exclusive upper bound of the enumeration. -/
def MAX_ID : Nat := 6

/-- esp_err_t success code ESP_OK. -/
def ESP_OK : Int := 0

/-- esp_err_t generic failure code ESP_FAIL. -/
def ESP_FAIL : Int := -1

/-- FreeRTOS idle-task priority tskIDLE_PRIORITY. -/
def tskIDLE_PRIORITY : Nat := 0

/-- ServiceMngr::mServiceName table (ServiceMngr_Generalized.hpp). -/
def mServiceName : Nat → String
  | 0 => ""
  | 1 => "SRV_MNGR"
  | 2 => "UI"
  | 3 => "MATTER"
  | 4 => "MQTT"
  | 5 => "LOG"
  | _ => ""

/-- ServiceMngr::mServiceStackSize table (ServiceMngr_Generalized.hpp). -/
def mServiceStackSize : Nat → Nat
  | 1 => 20 * 1024
  | 2 => 50 * 1024
  | 3 => 50 * 1024
  | 4 => 20 * 1024
  | _ => 0

/-- ServiceFactoryFunc: a factory takes the task name and the service id and
yields a shared_ptr to the service, possibly null (ServiceFactory.hpp). -/
abbrev ServiceFactoryFunc (S : Type) := String → Nat → Option S

/-- The ServiceFactoryRegistry::sFactories array: one optional factory per
identity (indices at or beyond MAX_ID are never stored, the operations reject
them before any access). -/
abbrev Registry (S : Type) := Nat → Option (ServiceFactoryFunc S)

/-- ServiceFactoryRegistry::RegisterService (ServiceFactory.cpp lines 88-108):
rejects serviceID >= MAX_ID or == NO_ID with false, otherwise stores the
factory at that slot (overwriting any prior entry) and returns true.  The
result pairs the new registry with the returned bool. -/
def RegisterService (reg : Registry S) (serviceID : Nat)
    (factory : ServiceFactoryFunc S) : Registry S × Bool :=
  if MAX_ID ≤ serviceID ∨ serviceID = NO_ID then
    (reg, false)
  else
    (fun i => if i = serviceID then some factory else reg i, true)

/-- ServiceFactoryRegistry::IsServiceRegistered (ServiceFactory.cpp lines
188-197): false for invalid ids, otherwise whether the slot is non-null. -/
def IsServiceRegistered (reg : Registry S) (serviceID : Nat) : Bool :=
  if MAX_ID ≤ serviceID ∨ serviceID = NO_ID then
    false
  else
    (reg serviceID).isSome

/-- ServiceFactoryRegistry::CreateService (ServiceFactory.cpp lines 139-161):
returns null on invalid id, null when no factory is registered, otherwise the
factory's result unmodified. -/
def CreateService (reg : Registry S) (serviceID : Nat)
    (taskName : String) : Option S :=
  if MAX_ID ≤ serviceID ∨ serviceID = NO_ID then
    none
  else
    match reg serviceID with
    | none => none
    | some factory => factory taskName serviceID

/-- Environment of the manager: the registry contents at startup time and the
outcome of each service's TaskInit call, as a function of the service instance,
the priority and the stack size (TaskInit writes a task handle and returns an
esp_err_t). -/
structure Env (S H : Type) where
  registry : Registry S
  taskInit : S → Nat → Nat → Int × H

/-- The manager's static record tables: sServiceInstances and sServiceHandles
(std::map in ServiceMngr_Generalized.hpp; a key absent from the map is none). -/
structure MngrState (S H : Type) where
  sServiceInstances : Nat → Option S
  sServiceHandles : Nat → Option H

/-- The manager state with both maps empty (the initial static state). -/
def emptyMngrState (S H : Type) : MngrState S H :=
  { sServiceInstances := fun _ => none, sServiceHandles := fun _ => none }

/-- ServiceMngr::InitializeService (identical in ServiceMngr.hpp lines 132-167
and ServiceMngr_Generalized.cpp lines 98-133): create the service by factory;
a null handle returns ESP_FAIL with nothing stored; otherwise the instance is
stored, TaskInit is called at tskIDLE_PRIORITY + 1 with the identity's stack
budget, on success the task handle is stored, on failure the stored instance
is erased; the TaskInit status is returned. -/
def InitializeService (env : Env S H) (st : MngrState S H)
    (serviceID : Nat) : Int × MngrState S H :=
  match CreateService env.registry serviceID (mServiceName serviceID) with
  | none => (ESP_FAIL, st)
  | some service =>
    let st1 : MngrState S H :=
      { st with sServiceInstances :=
          fun i => if i = serviceID then some service else st.sServiceInstances i }
    let r := env.taskInit service (tskIDLE_PRIORITY + 1) (mServiceStackSize serviceID)
    if r.1 = ESP_OK then
      (r.1, { st1 with sServiceHandles :=
          fun i => if i = serviceID then some r.2 else st1.sServiceHandles i })
    else
      (r.1, { st1 with sServiceInstances :=
          fun i => if i = serviceID then none else st1.sServiceInstances i })

/-- One iteration of the loop in ServiceMngr::OnMachineStateStart
(ServiceMngr.hpp lines 103-130): LOG is skipped, unregistered identities are
skipped, registered ones are initialized and the first non-ESP_OK result is
remembered in the accumulator's first component. -/
def startStep (env : Env S H) (acc : Int × MngrState S H) (id : Nat) :
    Int × MngrState S H :=
  if id = LOG then
    acc
  else if IsServiceRegistered env.registry id then
    let r := InitializeService env acc.2 id
    if r.1 ≠ ESP_OK ∧ acc.1 = ESP_OK then (r.1, r.2) else (acc.1, r.2)
  else
    acc

/-- ServiceMngr::OnMachineStateStart of ServiceMngr.hpp (lines 103-130): loop
id from UI up to but excluding MAX_ID, fold startStep, return the remembered
first error (ESP_OK when none). -/
def OnMachineStateStart (env : Env S H) (st : MngrState S H) :
    Int × MngrState S H :=
  (List.range' UI (MAX_ID - UI)).foldl (startStep env) (ESP_OK, st)

/-- Instrumented copy of the OnMachineStateStart loop body that additionally
records, in order, the identities for which InitializeService was invoked; its
first component is exactly startStep. -/
def startStepT (env : Env S H)
    (acc : (Int × MngrState S H) × List Nat) (id : Nat) :
    (Int × MngrState S H) × List Nat :=
  (startStep env acc.1 id,
   if id = LOG then acc.2
   else if IsServiceRegistered env.registry id then acc.2 ++ [id]
   else acc.2)

/-- OnMachineStateStart with the attempted-identity trace. -/
def OnMachineStateStartTrace (env : Env S H) (st : MngrState S H) :
    (Int × MngrState S H) × List Nat :=
  (List.range' UI (MAX_ID - UI)).foldl (startStepT env) ((ESP_OK, st), [])

/-- One hardcoded block of ServiceMngr::OnMachineStateStart in
ServiceMngr_Generalized.cpp (lines 58-96): when the identity is registered the
status variable is overwritten with the InitializeService result, otherwise it
is left as it was. -/
def genStep (env : Env S H) (acc : Int × MngrState S H) (id : Nat) :
    Int × MngrState S H :=
  if IsServiceRegistered env.registry id then
    InitializeService env acc.2 id
  else
    acc

/-- ServiceMngr::OnMachineStateStart of ServiceMngr_Generalized.cpp (lines
58-96): the three hardcoded blocks for UI, MATTER and MQTT in that order,
starting from err = ESP_OK. -/
def OnMachineStateStartGen (env : Env S H) (st : MngrState S H) :
    Int × MngrState S H :=
  genStep env (genStep env (genStep env (ESP_OK, st) UI) MATTER) MQTT

/-- Environment of the ServiceMngr constructor: the results of the three
platform bring-up steps and the outcome of the manager's own TaskInit as a
function of priority and stack size. -/
structure CtorEnv (H : Type) where
  nvsFlashInitResult : Int
  SpiffsInitResult : Int
  sharedBusInitResult : Int
  taskInit : Nat → Nat → Int × H

/-- Observable outcome of the ServiceMngr constructor: the arguments the
manager passed to its own TaskInit, the status that call returned, and the
written SrvMngHandle. -/
structure CtorResult (H : Type) where
  taskInitPriority : Nat
  taskInitStack : Nat
  taskInitErr : Int
  SrvMngHandle : H

/-- ServiceMngr::ServiceMngr (ServiceMngr.hpp lines 63-97, identically
ServiceMngr_Generalized.cpp lines 17-52): nvsFlashInit, SpiffsInit and
SharedBus Init run first and their results are only logged — no branch of the
constructor returns early or throws on them — then TaskInit is called at
tskIDLE_PRIORITY + 1 with mServiceStackSize[SERVICE_MANAGER], and its status
is logged but not propagated either. -/
def ServiceMngrConstruct (env : CtorEnv H) : CtorResult H :=
  let r := env.taskInit (tskIDLE_PRIORITY + 1) (mServiceStackSize SERVICE_MANAGER)
  { taskInitPriority := tskIDLE_PRIORITY + 1
    taskInitStack := mServiceStackSize SERVICE_MANAGER
    taskInitErr := r.1
    SrvMngHandle := r.2 }

/-- The esp_err_t value InitializeService returns for an identity, which
depends only on the environment (ESP_FAIL when creation yields null, else the
TaskInit status). -/
def initResult (env : Env S H) (serviceID : Nat) : Int :=
  match CreateService env.registry serviceID (mServiceName serviceID) with
  | none => ESP_FAIL
  | some service =>
    (env.taskInit service (tskIDLE_PRIORITY + 1) (mServiceStackSize serviceID)).1

/-- The identities strictly between SERVICE_MANAGER and MAX_ID other than LOG,
in ascending order: the identities the startup loop is specified to consider. -/
def consideredIds : List Nat :=
  (List.range MAX_ID).filter (fun id => decide (SERVICE_MANAGER < id) && (id != LOG))

/-- The considered identities that hold a registered factory, in ascending
order: the identities startup is specified to attempt. -/
def attemptedIds (reg : Registry S) : List Nat :=
  consideredIds.filter (fun id => IsServiceRegistered reg id)

/-- First non-ESP_OK entry of a result list, ESP_OK when there is none. -/
def firstFailure (rs : List Int) : Int :=
  (rs.find? (fun r => r != ESP_OK)).getD ESP_OK

/-- Last entry of a result list, ESP_OK when there is none. -/
def lastResult (rs : List Int) : Int :=
  rs.getLast?.getD ESP_OK

/-- The identities the hardcoded OnMachineStateStart of
ServiceMngr_Generalized.cpp attempts: the registered ones among UI, MATTER,
MQTT in that order. -/
def genAttemptedIds (reg : Registry S) : List Nat :=
  [UI, MATTER, MQTT].filter (fun id => IsServiceRegistered reg id)

/-- The control condition under which the startup loop of ServiceMngr.hpp
invokes InitializeService for an identity: it is not LOG and it is
registered. -/
def loopAttempts (reg : Registry S) (id : Nat) : Bool :=
  (id != LOG) && IsServiceRegistered reg id

/-- Concrete environment over Nat services and Nat handles realizing the
scenario of the spec: factories registered for UI and MQTT only, returning
instances 10 and 20, and every TaskInit succeeding with handle
instance + 100. -/
def envScenario : Env Nat Nat where
  registry := fun i =>
    if i = UI then some (fun _ _ => some 10)
    else if i = MQTT then some (fun _ _ => some 20)
    else none
  taskInit := fun s _ _ => (ESP_OK, s + 100)

/-- envScenario with a factory additionally registered for LOG, to observe
that LOG is excluded from startup regardless of registration. -/
def envScenarioLog : Env Nat Nat where
  registry := fun i =>
    if i = LOG then some (fun _ _ => some 30) else envScenario.registry i
  taskInit := envScenario.taskInit

/-- Concrete environment whose single registered factory (at UI) creates
instance 7 while every TaskInit fails. -/
def envTaskFail : Env Nat Nat where
  registry := fun i => if i = UI then some (fun _ _ => some 7) else none
  taskInit := fun _ _ _ => (ESP_FAIL, 0)

/-- Concrete environment with UI, MATTER and MQTT all registered in which UI
creation fails (factory yields null), MATTER initializes successfully, and
MQTT fails its TaskInit. -/
def envGenMask : Env Nat Nat where
  registry := fun i =>
    if i = UI then some (fun _ _ => none)
    else if i = MATTER then some (fun _ _ => some 1)
    else if i = MQTT then some (fun _ _ => some 2)
    else none
  taskInit := fun s _ _ => if s = 1 then (ESP_OK, s) else (ESP_FAIL, 0)

/-- A valid identity falsifies the rejection test shared by the three registry
operations. -/
theorem valid_not_rejected {i : Nat} (h1 : NO_ID < i) (h2 : i < MAX_ID) :
    ¬(MAX_ID ≤ i ∨ i = NO_ID) := by
  rintro (h | h)
  · exact absurd h2 (not_lt.mpr h)
  · exact absurd h1 (by simp [h])

/-- C4: RegisterService returns false and leaves IsServiceRegistered false for
identities equal to NO_ID or at least MAX_ID; for NO_ID < i < MAX_ID it stores
the factory in slot i, returns true, and IsServiceRegistered i becomes true. -/
theorem RegisterService_validity_spec {S : Type} (reg : Registry S) (i : Nat)
    (f : ServiceFactoryFunc S) :
    ((i = NO_ID ∨ MAX_ID ≤ i) →
      RegisterService reg i f = (reg, false) ∧
      IsServiceRegistered (RegisterService reg i f).1 i = false) ∧
    (NO_ID < i → i < MAX_ID →
      (RegisterService reg i f).2 = true ∧
      (RegisterService reg i f).1 i = some f ∧
      IsServiceRegistered (RegisterService reg i f).1 i = true) := by
  constructor
  · intro h
    have hc : MAX_ID ≤ i ∨ i = NO_ID := h.symm
    simp [RegisterService, IsServiceRegistered, hc]
  · intro h1 h2
    simp [RegisterService, IsServiceRegistered, valid_not_rejected h1 h2]

/-- Witness for RegisterService_validity_spec at the empty registry, with the
valid identity UI = 2 and the invalid identity NO_ID = 0. -/
theorem RegisterService_validity_spec_witness :
    ((RegisterService (fun _ => none : Registry Nat) 2 (fun _ _ => some 1)).2 = true ∧
     (RegisterService (fun _ => none : Registry Nat) 2 (fun _ _ => some 1)).1 2 =
       some (fun _ _ => some 1) ∧
     IsServiceRegistered
       (RegisterService (fun _ => none : Registry Nat) 2 (fun _ _ => some 1)).1 2 = true) ∧
    (RegisterService (fun _ => none : Registry Nat) 0 (fun _ _ => some 1) =
       ((fun _ => none : Registry Nat), false) ∧
     IsServiceRegistered
       (RegisterService (fun _ => none : Registry Nat) 0 (fun _ _ => some 1)).1 0 = false) :=
  ⟨(RegisterService_validity_spec _ 2 _).2 (by decide) (by decide),
   (RegisterService_validity_spec _ 0 _).1 (Or.inl rfl)⟩

/-- C5: CreateService yields an empty handle on an invalid identity whatever
the registry holds, an empty handle on a valid but unregistered identity, and
exactly the factory's result f n i when factory f is registered for valid i. -/
theorem CreateService_validity_spec {S : Type} (reg : Registry S) (i : Nat)
    (n : String) :
    ((i = NO_ID ∨ MAX_ID ≤ i) → CreateService reg i n = none) ∧
    (NO_ID < i → i < MAX_ID → reg i = none → CreateService reg i n = none) ∧
    (∀ f : ServiceFactoryFunc S, NO_ID < i → i < MAX_ID → reg i = some f →
      CreateService reg i n = f n i) := by
  refine ⟨fun h => ?_, fun h1 h2 hr => ?_, fun f h1 h2 hr => ?_⟩
  · have hc : MAX_ID ≤ i ∨ i = NO_ID := h.symm
    simp [CreateService, hc]
  · simp [CreateService, valid_not_rejected h1 h2, hr]
  · simp [CreateService, valid_not_rejected h1 h2, hr]

/-- Witness for CreateService_validity_spec: invalid identity MAX_ID = 6 on a
registry that is full everywhere, unregistered valid identity MATTER = 3 on
the empty registry, and a registered factory at UI = 2. -/
theorem CreateService_validity_spec_witness :
    CreateService (fun _ => some (fun _ _ => some 1) : Registry Nat) 6 "X" = none ∧
    CreateService (fun _ => none : Registry Nat) 3 "MATTER" = none ∧
    CreateService (fun i => if i = 2 then some (fun _ j => some (j + 40)) else none :
        Registry Nat) 2 "UI" = (fun _ j => some (j + 40)) "UI" 2 :=
  ⟨(CreateService_validity_spec _ 6 _).1 (Or.inr (by decide)),
   (CreateService_validity_spec _ 3 _).2.1 (by decide) (by decide) rfl,
   (CreateService_validity_spec _ 2 _).2.2 _ (by decide) (by decide) rfl⟩

/-- C6: registration is last-write-wins: after registering f1 then f2 for the
same valid identity, the second call returns true, the slot holds exactly f2
(so at most one factory per identity), and CreateService invokes f2. -/
theorem RegisterService_lastWriteWins {S : Type} (reg : Registry S) (i : Nat)
    (f1 f2 : ServiceFactoryFunc S) (n : String)
    (h1 : NO_ID < i) (h2 : i < MAX_ID) :
    (RegisterService (RegisterService reg i f1).1 i f2).2 = true ∧
    (RegisterService (RegisterService reg i f1).1 i f2).1 i = some f2 ∧
    CreateService (RegisterService (RegisterService reg i f1).1 i f2).1 i n =
      f2 n i := by
  simp [RegisterService, CreateService, valid_not_rejected h1 h2]

/-- Witness for RegisterService_lastWriteWins at identity MQTT = 4 with two
distinguishable factories on the empty registry. -/
theorem RegisterService_lastWriteWins_witness :
    (RegisterService
      (RegisterService (fun _ => none : Registry Nat) 4 (fun _ _ => some 1)).1
      4 (fun _ _ => some 2)).2 = true ∧
    (RegisterService
      (RegisterService (fun _ => none : Registry Nat) 4 (fun _ _ => some 1)).1
      4 (fun _ _ => some 2)).1 4 = some (fun _ _ => some 2) ∧
    CreateService
      (RegisterService
        (RegisterService (fun _ => none : Registry Nat) 4 (fun _ _ => some 1)).1
        4 (fun _ _ => some 2)).1 4 "MQTT" = (fun _ _ => some 2 : ServiceFactoryFunc Nat) "MQTT" 4 :=
  RegisterService_lastWriteWins (fun _ => none) 4 (fun _ _ => some 1)
    (fun _ _ => some 2) "MQTT" (by decide) (by decide)

/-- The status InitializeService returns depends only on the environment: it
is initResult for that identity, whatever the current record state. -/
theorem InitializeService_err (env : Env S H) (st : MngrState S H) (id : Nat) :
    (InitializeService env st id).1 = initResult env id := by
  unfold InitializeService initResult
  cases hc : CreateService env.registry id (mServiceName id) with
  | none => rfl
  | some s =>
    by_cases hr :
        (env.taskInit s (tskIDLE_PRIORITY + 1) (mServiceStackSize id)).1 = ESP_OK <;>
      simp [hr]

/-- Unfolding firstFailure over a cons cell. -/
theorem firstFailure_cons (x : Int) (xs : List Int) :
    firstFailure (x :: xs) = if x = ESP_OK then firstFailure xs else x := by
  by_cases hx : x = ESP_OK <;> simp [firstFailure, List.find?_cons, hx]

/-- Folding the startup loop body over any identity list: the status component
is the first failure among the attempted identities' results, unless a failure
was already remembered, which is then kept. -/
theorem foldl_startStep_err (env : Env S H) :
    ∀ (l : List Nat) (e : Int) (st : MngrState S H),
      (l.foldl (startStep env) (e, st)).1 =
        if e = ESP_OK then
          firstFailure ((l.filter (loopAttempts env.registry)).map (initResult env))
        else e := by
  intro l
  induction l with
  | nil =>
    intro e st
    by_cases he : e = ESP_OK <;> simp [he, firstFailure]
  | cons id l ih =>
    intro e st
    by_cases hl : id = LOG
    · simp [startStep, hl, loopAttempts, ih]
    · by_cases hreg : IsServiceRegistered env.registry id
      · simp only [List.foldl_cons, startStep, hl, if_false, hreg, if_true,
          ite_false, ite_true, List.filter_cons, loopAttempts]
        have hfil : (id != LOG) && IsServiceRegistered env.registry id = true := by
          simp [hl, hreg]
        rw [InitializeService_err]
        by_cases he : e = ESP_OK
        · by_cases hid : initResult env id = ESP_OK
          · simp [he, hid, hl, ih, hfil, loopAttempts, firstFailure_cons]
          · simp [he, hid, hl, ih, hfil, loopAttempts, firstFailure_cons]
        · simp [he, hl, ih, hfil, loopAttempts]
      · have hfil : ((id != LOG) && IsServiceRegistered env.registry id) = false := by
          simp [hreg]
        simp [startStep, hl, hreg, ih, List.filter_cons, hfil, loopAttempts]

/-- The identities the loop of ServiceMngr.hpp attempts over its actual
iteration range are exactly the registered considered identities. -/
theorem range_filter_attempts (reg : Registry S) :
    (List.range' UI (MAX_ID - UI)).filter (loopAttempts reg) = attemptedIds reg := by
  have h1 : List.range' UI (MAX_ID - UI) = [2, 3, 4, 5] := by decide
  have h2 : consideredIds = [2, 3, 4] := by decide
  rw [h1, attemptedIds, h2]
  simp [loopAttempts, List.filter_cons, IsServiceRegistered, LOG]

/-- C1: the startup trigger of ServiceMngr.hpp returns the first non-success
result among the initializations of the registered considered identities, in
order, and ESP_OK when all attempted initializations succeed; results of
identities after the first failure do not affect the returned status. -/
theorem OnMachineStateStart_firstFailure (env : Env S H) (st : MngrState S H) :
    (OnMachineStateStart env st).1 =
      firstFailure ((attemptedIds env.registry).map (initResult env)) := by
  rw [OnMachineStateStart, foldl_startStep_err env _ ESP_OK st, if_pos rfl,
    range_filter_attempts]

/-- Folding the instrumented loop body: the status-and-state component agrees
with the plain loop and the trace collects exactly the identities satisfying
the attempt condition, in list order. -/
theorem foldl_startStepT (env : Env S H) :
    ∀ (l : List Nat) (acc : Int × MngrState S H) (tr : List Nat),
      l.foldl (startStepT env) (acc, tr) =
        (l.foldl (startStep env) acc, tr ++ l.filter (loopAttempts env.registry)) := by
  intro l
  induction l with
  | nil => simp
  | cons id l ih =>
    intro acc tr
    by_cases hl : id = LOG
    · simp [startStepT, startStep, hl, loopAttempts, ih]
    · by_cases hreg : IsServiceRegistered env.registry id <;>
        simp [startStepT, startStep, hl, hreg, loopAttempts, ih]

/-- C2: the startup loop of ServiceMngr.hpp invokes InitializeService exactly
for the registered identities among those strictly between SERVICE_MANAGER and
MAX_ID other than LOG, each exactly once, in ascending order (the trace equals
that filtered ascending list), and the instrumented run coincides with
OnMachineStateStart. -/
theorem OnMachineStateStart_attempts (env : Env S H) (st : MngrState S H) :
    (OnMachineStateStartTrace env st).2 = attemptedIds env.registry ∧
    (OnMachineStateStartTrace env st).1 = OnMachineStateStart env st := by
  rw [OnMachineStateStartTrace, OnMachineStateStart,
    foldl_startStepT env _ (ESP_OK, st) []]
  exact ⟨by rw [List.nil_append, range_filter_attempts], rfl⟩

/-- C10 (amended): the OnMachineStateStart of ServiceMngr_Generalized.cpp
returns the result of the last attempted initialization among UI, MATTER,
MQTT, and ESP_OK when none is attempted; hence an earlier failure is not
reported whenever the last attempted initialization succeeds. -/
theorem OnMachineStateStartGen_lastResult (env : Env S H) (st : MngrState S H) :
    (OnMachineStateStartGen env st).1 =
      lastResult ((genAttemptedIds env.registry).map (initResult env)) := by
  by_cases h2 : IsServiceRegistered env.registry UI <;>
  by_cases h3 : IsServiceRegistered env.registry MATTER <;>
  by_cases h4 : IsServiceRegistered env.registry MQTT <;>
    simp [OnMachineStateStartGen, genStep, genAttemptedIds, lastResult, h2, h3, h4,
      InitializeService_err]

/-- Counterexample to C10 as stated: in envGenMask an earlier registered
service (UI) fails to initialize and a later registered service (MATTER)
initializes successfully, yet the ServiceMngr_Generalized.cpp startup trigger
returns a non-success status, because the still-later MQTT attempt fails and
overwrites the status. -/
theorem OnMachineStateStartGen_laterSuccess_counterexample :
    IsServiceRegistered envGenMask.registry UI = true ∧
    initResult envGenMask UI ≠ ESP_OK ∧
    IsServiceRegistered envGenMask.registry MATTER = true ∧
    initResult envGenMask MATTER = ESP_OK ∧
    UI < MATTER ∧
    (OnMachineStateStartGen envGenMask (emptyMngrState Nat Nat)).1 ≠ ESP_OK := by
  decide

/-- C3: with no record stored for an identity, any non-success from
InitializeService leaves no service instance recorded for it; a null creation
returns ESP_FAIL with the state untouched; a creation followed by a TaskInit
failure returns that failing status with the stored instance erased; and a
creation followed by a successful TaskInit records both the instance and the
task handle. -/
theorem InitializeService_record_spec (env : Env S H) (st : MngrState S H)
    (id : Nat) (h : st.sServiceInstances id = none) :
    ((InitializeService env st id).1 ≠ ESP_OK →
      ((InitializeService env st id).2).sServiceInstances id = none) ∧
    (CreateService env.registry id (mServiceName id) = none →
      InitializeService env st id = (ESP_FAIL, st)) ∧
    (∀ s, CreateService env.registry id (mServiceName id) = some s →
      (env.taskInit s (tskIDLE_PRIORITY + 1) (mServiceStackSize id)).1 ≠ ESP_OK →
      (InitializeService env st id).1 =
        (env.taskInit s (tskIDLE_PRIORITY + 1) (mServiceStackSize id)).1 ∧
      ((InitializeService env st id).2).sServiceInstances id = none) ∧
    (∀ s, CreateService env.registry id (mServiceName id) = some s →
      (env.taskInit s (tskIDLE_PRIORITY + 1) (mServiceStackSize id)).1 = ESP_OK →
      ((InitializeService env st id).2).sServiceInstances id = some s ∧
      ((InitializeService env st id).2).sServiceHandles id =
        some (env.taskInit s (tskIDLE_PRIORITY + 1) (mServiceStackSize id)).2) := by
  unfold InitializeService
  cases hc : CreateService env.registry id (mServiceName id) with
  | none => simp [h]
  | some s0 =>
    by_cases hr :
        (env.taskInit s0 (tskIDLE_PRIORITY + 1) (mServiceStackSize id)).1 = ESP_OK <;>
      simp [hr]

/-- Witness for InitializeService_record_spec at identity UI in envScenario,
starting from the empty record state. -/
theorem InitializeService_record_spec_witness :
    (emptyMngrState Nat Nat).sServiceInstances UI = none ∧
    (((InitializeService envScenario (emptyMngrState Nat Nat) UI).1 ≠ ESP_OK →
      ((InitializeService envScenario (emptyMngrState Nat Nat) UI).2).sServiceInstances UI =
        none) ∧
     (CreateService envScenario.registry UI (mServiceName UI) = none →
      InitializeService envScenario (emptyMngrState Nat Nat) UI =
        (ESP_FAIL, emptyMngrState Nat Nat)) ∧
     (∀ s, CreateService envScenario.registry UI (mServiceName UI) = some s →
      (envScenario.taskInit s (tskIDLE_PRIORITY + 1) (mServiceStackSize UI)).1 ≠ ESP_OK →
      (InitializeService envScenario (emptyMngrState Nat Nat) UI).1 =
        (envScenario.taskInit s (tskIDLE_PRIORITY + 1) (mServiceStackSize UI)).1 ∧
      ((InitializeService envScenario (emptyMngrState Nat Nat) UI).2).sServiceInstances UI =
        none) ∧
     (∀ s, CreateService envScenario.registry UI (mServiceName UI) = some s →
      (envScenario.taskInit s (tskIDLE_PRIORITY + 1) (mServiceStackSize UI)).1 = ESP_OK →
      ((InitializeService envScenario (emptyMngrState Nat Nat) UI).2).sServiceInstances UI =
        some s ∧
      ((InitializeService envScenario (emptyMngrState Nat Nat) UI).2).sServiceHandles UI =
        some (envScenario.taskInit s (tskIDLE_PRIORITY + 1) (mServiceStackSize UI)).2)) :=
  ⟨rfl, InitializeService_record_spec envScenario (emptyMngrState Nat Nat) UI rfl⟩

/-- C9: when InitializeService takes its start-failure branch (creation
succeeded, TaskInit did not return ESP_OK), the task-handle table
sServiceHandles is left completely unchanged. -/
theorem InitializeService_startFail_frame (env : Env S H) (st : MngrState S H)
    (id : Nat) (s : S)
    (hc : CreateService env.registry id (mServiceName id) = some s)
    (hf : (env.taskInit s (tskIDLE_PRIORITY + 1) (mServiceStackSize id)).1 ≠ ESP_OK) :
    ((InitializeService env st id).2).sServiceHandles = st.sServiceHandles := by
  unfold InitializeService
  rw [hc]
  simp [hf]

/-- Witness for InitializeService_startFail_frame: in envTaskFail the UI
factory creates instance 7, its TaskInit fails, and the task-handle table of
the empty state is unchanged. -/
theorem InitializeService_startFail_frame_witness :
    CreateService envTaskFail.registry UI (mServiceName UI) = some 7 ∧
    (envTaskFail.taskInit 7 (tskIDLE_PRIORITY + 1) (mServiceStackSize UI)).1 ≠ ESP_OK ∧
    ((InitializeService envTaskFail (emptyMngrState Nat Nat) UI).2).sServiceHandles =
      (emptyMngrState Nat Nat).sServiceHandles :=
  ⟨rfl, by decide,
   InitializeService_startFail_frame envTaskFail (emptyMngrState Nat Nat) UI 7
     rfl (by decide)⟩

/-- C8: for every combination of bring-up outcomes (non-volatile storage,
filesystem, shared bus) the ServiceMngr constructor reaches its own TaskInit
call with priority tskIDLE_PRIORITY + 1 and the SERVICE_MANAGER stack-size
entry, and the construction outcome is unaffected by the bring-up results and
by a TaskInit failure: the status is recorded, never propagated. -/
theorem ServiceMngrConstruct_unconditional (env : CtorEnv H) :
    (ServiceMngrConstruct env).taskInitPriority = tskIDLE_PRIORITY + 1 ∧
    (ServiceMngrConstruct env).taskInitStack = mServiceStackSize SERVICE_MANAGER ∧
    (ServiceMngrConstruct env).taskInitErr =
      (env.taskInit (tskIDLE_PRIORITY + 1) (mServiceStackSize SERVICE_MANAGER)).1 ∧
    (∀ a b c : Int,
      ServiceMngrConstruct
        { nvsFlashInitResult := a, SpiffsInitResult := b,
          sharedBusInitResult := c, taskInit := env.taskInit } =
        ServiceMngrConstruct env) :=
  ⟨rfl, rfl, rfl, fun _ _ _ => rfl⟩

/-- C7: in the concrete scenario (factories registered for UI and MQTT only,
all creations and starts succeeding) the startup trigger of ServiceMngr.hpp
returns ESP_OK, UI and MQTT each hold a service instance and a task handle,
MATTER has no record at all, LOG has no record, and even with a LOG factory
registered the loop never attempts LOG (the trace is exactly [UI, MQTT]). -/
theorem scenario_startup_spec :
    (OnMachineStateStart envScenario (emptyMngrState Nat Nat)).1 = ESP_OK ∧
    ((OnMachineStateStart envScenario (emptyMngrState Nat Nat)).2).sServiceInstances UI =
      some 10 ∧
    ((OnMachineStateStart envScenario (emptyMngrState Nat Nat)).2).sServiceHandles UI =
      some 110 ∧
    ((OnMachineStateStart envScenario (emptyMngrState Nat Nat)).2).sServiceInstances MQTT =
      some 20 ∧
    ((OnMachineStateStart envScenario (emptyMngrState Nat Nat)).2).sServiceHandles MQTT =
      some 120 ∧
    ((OnMachineStateStart envScenario (emptyMngrState Nat Nat)).2).sServiceInstances MATTER =
      none ∧
    ((OnMachineStateStart envScenario (emptyMngrState Nat Nat)).2).sServiceHandles MATTER =
      none ∧
    ((OnMachineStateStart envScenario (emptyMngrState Nat Nat)).2).sServiceInstances LOG =
      none ∧
    ((OnMachineStateStart envScenario (emptyMngrState Nat Nat)).2).sServiceHandles LOG =
      none ∧
    (OnMachineStateStartTrace envScenarioLog (emptyMngrState Nat Nat)).2 = [UI, MQTT] ∧
    ((OnMachineStateStartTrace envScenarioLog (emptyMngrState Nat Nat)).1.2).sServiceInstances
      LOG = none ∧
    ((OnMachineStateStartTrace envScenarioLog (emptyMngrState Nat Nat)).1.2).sServiceHandles
      LOG = none := by
  decide

end Oven
